import Mathlib

/-!
# Verification of the tarot conversation-orchestration core

Shallow embedding of the core components of the tarot reading app:

* the Draw Engine (`src/app/src/app/api/rng/draw/route.ts`),
* the chat tool layer (`src/app/src/app/api/chat/tools.ts`),
* the Interpretation Handoff fallback (`src/app/src/app/api/chat/thinking.ts`),
* the Summarizer (`src/app/src/lib/summarization.ts`),
* the Turn Controller / tool loop (`src/app/src/app/api/chat/route.ts`).

Modelling conventions:

* TypeScript strings are Lean `String`s; where character-level reasoning is
  needed we use `String.data` (`List Char`), which matches JS `.length` /
  `.substring` on the BMP code units the repository actually uses.
* Machine integers are `Nat` (all quantities involved are non-negative;
  the raw entropy values are unsigned 16-bit numbers handled with `%`).
* Network calls (model streams, entropy providers, the internal RNG fetch)
  are oracles: their outcomes are explicit `Except`/list-valued inputs of
  the embedded functions.  Everything the code does with those outcomes is
  transliterated from the source.
* The payloads fed *to* the models (system prompts, message history) only
  influence the oracles' answers, so their assembly is not re-modelled in
  the parts of the Turn Controller embedding whose claims are purely about
  the emitted event trace.
-/

/-! ## Data model (shapes taken from their use sites in the source) -/

/-- One card of the catalog (fields as used by `tools.ts` / `thinking.ts`). -/
structure Card where
  id : Nat
  name : String
  meaning : String
  meaning_reversed : String
  keywords : List String
  keywords_reversed : List String
  deriving Repr, DecidableEq

/-- One position of a spread: `{index, meaning}`. -/
structure SpreadPosition where
  index : Nat
  meaning : String
  deriving Repr, DecidableEq

/-- Provenance of a spread snapshot (`spread_snapshot.source`). -/
structure SpreadSource where
  type : String
  spread_id : String
  slug : Option String
  deriving Repr, DecidableEq

/-- A spread snapshot as stored in a `Reading` (`spread_snapshot`). -/
structure SpreadSnapshot where
  name : String
  purpose : String
  n_cards : Nat
  positions : List SpreadPosition
  layout_descriptor : String
  source : SpreadSource
  deriving Repr, DecidableEq

/-- A built-in spread of the read-only catalog (`spreadService`). -/
structure SystemSpread where
  id : String
  slug : String
  name : String
  purpose : String
  n_cards : Nat
  positions : List SpreadPosition
  layout_descriptor : String
  deriving Repr, DecidableEq

/-- One drawn card inside a reading: `{position_index, card_id, reversed}`. -/
structure ReadingCard where
  position_index : Nat
  card_id : Nat
  reversed : Bool
  deriving Repr, DecidableEq

/-- A positioned card with the full card record (`SpreadWithCards.cards[i]`). -/
structure PositionedCard where
  position_index : Nat
  card : Card
  reversed : Bool
  deriving Repr, DecidableEq

/-- The frozen active-spread snapshot (`SpreadWithCards`). -/
structure SpreadWithCards where
  reading_id : String
  question : String
  spread : SpreadSnapshot
  cards : List PositionedCard
  deriving Repr, DecidableEq

/-- One draw: `{cardId, reversed}`. -/
structure CardDraw where
  cardId : Nat
  reversed : Bool
  deriving Repr, DecidableEq

/-- One entropy-tier attempt of the provenance record.  The wall-clock ISO
timestamps of the source are modelled by an abstract monotone counter: each
`new Date().toISOString()` call yields the next tick. -/
structure RngAttempt where
  method : String
  provider : String
  started_at : Nat
  ended_at : Nat
  success : Bool
  error : Option String
  requested : Option Nat
  received : Option Nat
  deriving Repr, DecidableEq

/-- Provenance: `{method_used, attempts}`. -/
structure RngProvenance where
  method_used : String
  attempts : List RngAttempt
  deriving Repr, DecidableEq

/-- Result of `drawCards`: `{draws, provenance}`. -/
structure DrawResponse where
  draws : List CardDraw
  provenance : RngProvenance
  deriving Repr, DecidableEq

/-- A completed reading (fields as built in `tools.ts` / `route.ts`). -/
structure Reading where
  id : String
  created_at : String
  spread_id : String
  spread_snapshot : SpreadSnapshot
  question : String
  allow_duplicates : Bool
  allow_reversals : Bool
  cards : List ReadingCard
  rng : RngProvenance
  deriving Repr, DecidableEq

/-- An append-only ledger entry (`SpreadLedgerEntry`). -/
structure SpreadLedgerEntry where
  reading_id : String
  question_summary : String
  spread_name : String
  cards_summary : String
  created_at : String
  deriving Repr, DecidableEq

/-! ## Draw Engine — `src/app/src/app/api/rng/draw/route.ts`

`drawCards(n, allowDuplicates, allowReversals)` pulls raw uint16 numbers
from a three-tier cascade (`qrng`, `random_org`, `fallback`).  Each tier's
provider call is an oracle input `Except String (List Nat)`: `.error e`
models the provider function throwing with message `e`, `.ok nums` models
it resolving with the given numbers. -/

def TOTAL_CARDS : Nat := 78

def TOTAL_ORIENTED_STATES : Nat := 156

def UINT16_MAX : Nat := 65536

/-- `Math.floor(65536 / 156) * 156`. -/
def REJECTION_LIMIT : Nat := UINT16_MAX / TOTAL_ORIENTED_STATES * TOTAL_ORIENTED_STATES

/-- Accumulator of the inner sampling loop: the draws so far and the
`usedBaseCards` set (kept as a list). -/
structure DrawState where
  draws : List CardDraw
  used : List Nat
  deriving Repr, DecidableEq

/-- One iteration body of the `for (const num of numbers)` loop (the
`draws.length >= n` break is handled by the caller): rejection sampling,
oriented-state decoding, and the uniqueness check. -/
def stepNum (allowDuplicates allowReversals : Bool) (st : DrawState) (num : Nat) :
    DrawState :=
  if num ≥ REJECTION_LIMIT then st
  else
    let orientedCard := num % TOTAL_ORIENTED_STATES
    let baseCardId := orientedCard % TOTAL_CARDS
    let isReversed : Bool := decide (orientedCard ≥ TOTAL_CARDS)
    if !allowDuplicates && st.used.contains baseCardId then st
    else
      { draws := st.draws ++ [{ cardId := baseCardId,
                                reversed := if allowReversals then isReversed else false }],
        used := if !allowDuplicates then st.used ++ [baseCardId] else st.used }

/-- The `for (const num of numbers)` loop with its `draws.length >= n` break. -/
def processNumbers (n : Nat) (allowDuplicates allowReversals : Bool)
    (st : DrawState) : List Nat → DrawState
  | [] => st
  | num :: rest =>
    if st.draws.length ≥ n then st
    else processNumbers n allowDuplicates allowReversals
      (stepNum allowDuplicates allowReversals st num) rest

/-- One entropy tier of the `methods` array: its identifiers and the
outcome its provider function would produce if called. -/
structure RngTier where
  method : String
  provider : String
  outcome : Except String (List Nat)
  deriving Repr

/-- Engine state threaded through the tier cascade. -/
structure EngineState where
  st : DrawState
  attempts : List RngAttempt
  clock : Nat
  deriving Repr, DecidableEq

/-- One iteration body of the `for (const {method, fn} of methods)` loop:
record the attempt, call the provider, and on success feed its numbers
through rejection sampling.  `requestSize = min(needed * 3, 1024)`. -/
def tierStep (n : Nat) (allowDuplicates allowReversals : Bool)
    (es : EngineState) (tier : RngTier) : EngineState :=
  let needed := n - es.st.draws.length
  let requestSize := min (needed * 3) 1024
  let startedAt := es.clock
  match tier.outcome with
  | .ok numbers =>
    let attempt : RngAttempt :=
      { method := tier.method, provider := tier.provider,
        started_at := startedAt, ended_at := es.clock + 1,
        success := true, error := none,
        requested := some requestSize, received := some numbers.length }
    let st1 := processNumbers n allowDuplicates allowReversals es.st numbers
    { st := st1, attempts := es.attempts ++ [attempt], clock := es.clock + 2 }
  | .error e =>
    let attempt : RngAttempt :=
      { method := tier.method, provider := tier.provider,
        started_at := startedAt, ended_at := es.clock + 1,
        success := false, error := some e,
        requested := none, received := none }
    { st := es.st, attempts := es.attempts ++ [attempt], clock := es.clock + 2 }

/-- The tier cascade loop with its `draws.length >= n` break (the source
breaks both at the top of the loop and right after a successful tier; both
breaks are the same test on the updated state). -/
def runTiers (n : Nat) (allowDuplicates allowReversals : Bool)
    (es : EngineState) : List RngTier → EngineState
  | [] => es
  | tier :: rest =>
    if es.st.draws.length ≥ n then es
    else runTiers n allowDuplicates allowReversals
      (tierStep n allowDuplicates allowReversals es tier) rest

/-- `drawCards` — the tier outcomes for `qrng`, `random_org` and the local
`fallback` generator are oracle inputs. -/
def drawCards (n : Nat) (allowDuplicates allowReversals : Bool)
    (qrng randomOrg fallback : Except String (List Nat)) : DrawResponse :=
  let methods : List RngTier :=
    [ { method := "qrng", provider := "anu_qrng", outcome := qrng },
      { method := "random_org", provider := "random_org", outcome := randomOrg },
      { method := "fallback", provider := "crypto", outcome := fallback } ]
  let es := runTiers n allowDuplicates allowReversals
    { st := { draws := [], used := [] }, attempts := [], clock := 0 } methods
  let methodUsed := match es.attempts.find? (fun a => a.success) with
    | some a => a.method
    | none => "fallback"
  { draws := es.st.draws,
    provenance := { method_used := methodUsed, attempts := es.attempts } }

/-- The `POST /rng/draw` handler's validation followed by `drawCards`;
`.error` is an HTTP 400 response body. -/
def postDraw (n : Nat) (allowDuplicates allowReversals : Bool)
    (qrng randomOrg fallback : Except String (List Nat)) :
    Except String DrawResponse :=
  if n < 1 then .error "n must be at least 1"
  else if !allowDuplicates && n > TOTAL_CARDS then
    .error ("Cannot draw " ++ toString n ++ " unique cards from a deck of " ++
      toString TOTAL_CARDS)
  else .ok (drawCards n allowDuplicates allowReversals qrng randomOrg fallback)

/-! ## Tool layer — `src/app/src/app/api/chat/tools.ts` -/

/-- `formatSpreadForAI` (tools.ts): model-facing text of a laid spread. -/
def formatSpreadForAI (spreadWithCards : SpreadWithCards) : String :=
  let header : List String :=
    [ "## Current Spread: " ++ spreadWithCards.spread.name,
      "**Question:** " ++ spreadWithCards.question,
      "**Purpose:** " ++ spreadWithCards.spread.purpose,
      "",
      "**Cards drawn:**" ]
  let cardLines := spreadWithCards.cards.flatMap (fun pc =>
    let position := spreadWithCards.spread.positions.find?
      (fun p => p.index = pc.position_index)
    let positionMeaning := match position with
      | some p => p.meaning
      | none => "undefined"
    let orientation := if pc.reversed then "Reversed" else "Upright"
    let keywords := if pc.reversed then pc.card.keywords_reversed else pc.card.keywords
    [ "- Position " ++ toString (pc.position_index + 1) ++ " (" ++ positionMeaning ++
        "): **" ++ pc.card.name ++ "** (" ++ orientation ++ ")",
      "  Keywords: " ++ String.intercalate ", " keywords ])
  String.intercalate "\n" (header ++ cardLines)

/-- `formatLedgerForAI` (tools.ts). -/
def formatLedgerForAI (ledger : List SpreadLedgerEntry) : String :=
  if ledger.isEmpty then ""
  else
    let lines := ["## Previous Spreads in This Session", ""] ++
      ledger.flatMap (fun entry =>
        [ "- **" ++ entry.spread_name ++ "** (" ++ entry.created_at ++ ")",
          "  Question: " ++ entry.question_summary,
          "  Cards: " ++ entry.cards_summary,
          "" ])
    String.intercalate "\n" lines

/-- `createLedgerEntry` (tools.ts): summarize a reading into a ledger entry.
`question.substring(0, 97)` is the first 97 code units, modelled through
`String.data`. -/
def createLedgerEntry (reading : Reading) (allCards : List Card) :
    SpreadLedgerEntry :=
  let cardsSummary := String.intercalate ", " (reading.cards.map (fun rc =>
    let name := match allCards.find? (fun c => c.id = rc.card_id) with
      | some c => c.name
      | none => "Card " ++ toString rc.card_id
    if rc.reversed then name ++ " (R)" else name))
  { reading_id := reading.id,
    question_summary :=
      if reading.question.length > 100 then
        String.mk (reading.question.data.take 97) ++ "..."
      else reading.question,
    spread_name := reading.spread_snapshot.name,
    cards_summary := cardsSummary,
    created_at := reading.created_at }

/-- Arguments of the `draw_cards` tool. -/
structure DrawCardsArgs where
  spread_slug : Option String
  custom_positions : Option (List String)
  question : String
  deriving Repr, DecidableEq

/-- Result of `executeDrawCards`: on success the reading and the frozen
`SpreadWithCards`; on failure the error text. -/
structure DrawCardsOk where
  reading : Reading
  spreadWithCards : SpreadWithCards
  deriving Repr, DecidableEq

/-- JS truthiness of an optional string (the source tests `if (spread_slug)`,
so an absent *or empty* slug falls through to the custom branch). -/
def truthyStr : Option String → Bool
  | none => false
  | some s => !(s = "")

/-- JS truthiness of `custom_positions && custom_positions.length > 0`. -/
def truthyPositions : Option (List String) → Bool
  | none => false
  | some ps => decide (ps.length > 0)

/-- The spread descriptor resolved by the first half of `executeDrawCards`. -/
structure ResolvedSpread where
  spreadName : String
  spreadPurpose : String
  positions : List SpreadPosition
  layoutDescriptor : String
  spreadId : String
  deriving Repr, DecidableEq

/-- `getSpreadBySlug` of the catalog accessor (`spreadService`): lookup of a
built-in spread by slug.  The catalog itself is an input. -/
def getSpreadBySlug (catalog : List SystemSpread) (slug : String) :
    Option SystemSpread :=
  catalog.find? (fun s => s.slug = slug)

/-- Spread resolution of `executeDrawCards` (tools.ts, lines 135-170):
built-in by slug, else a custom spread synthesized from the caller-supplied
position meanings, else failure.  `uuid` is the oracle for `uuidv4()`. -/
def resolveSpread (catalog : List SystemSpread) (uuid : String)
    (args : DrawCardsArgs) : Except String ResolvedSpread :=
  if truthyStr args.spread_slug then
    let slug := args.spread_slug.getD ""
    match getSpreadBySlug catalog slug with
    | none =>
      .error ("Unknown spread: " ++ slug ++ ". Available spreads: " ++
        String.intercalate ", " (catalog.map (fun s => s.slug)))
    | some spread =>
      .ok { spreadName := spread.name, spreadPurpose := spread.purpose,
            positions := spread.positions,
            layoutDescriptor := spread.layout_descriptor,
            spreadId := spread.id }
  else if truthyPositions args.custom_positions then
    let ps := args.custom_positions.getD []
    .ok { spreadName := "Custom Spread",
          spreadPurpose := "A custom spread created for this reading",
          positions := ps.enum.map (fun m => { index := m.1, meaning := m.2 }),
          layoutDescriptor := String.intercalate " "
            ((List.range ps.length).map (fun i => toString (i + 1))),
          spreadId := "custom_" ++ uuid }
  else
    .error "Must provide either spread_slug or custom_positions"

/-- A junk card standing for the unchecked `as Card` cast the source performs
after `allCards.find(...)` when assembling `SpreadWithCards`. -/
def undefinedCard : Card :=
  { id := 0, name := "undefined", meaning := "undefined",
    meaning_reversed := "undefined", keywords := [], keywords_reversed := [] }

/-- `executeDrawCards` (tools.ts): resolve the spread, call the Draw Engine
over HTTP (an oracle: `.error` models a thrown/failed fetch, `.ok draws`
the parsed response) and build the reading plus the frozen spread context.
`uuid₁` is the custom-spread id oracle, `uuid₂` the reading id, `createdAt`
the `new Date().toISOString()` value. -/
def executeDrawCards (catalog : List SystemSpread) (allCards : List Card)
    (uuid₁ uuid₂ createdAt : String)
    (drawResult : RngProvenance → Except String (List CardDraw))
    (rngProvenance : RngProvenance) (args : DrawCardsArgs) :
    Except String DrawCardsOk :=
  match resolveSpread catalog uuid₁ args with
  | .error e => .error e
  | .ok resolved =>
    let nCards := resolved.positions.length
    match drawResult rngProvenance with
    | .error e => .error e
    | .ok draws =>
      let readingCards : List ReadingCard := draws.enum.map (fun d =>
        { position_index := d.1, card_id := d.2.cardId, reversed := d.2.reversed })
      let snapshot : SpreadSnapshot :=
        { name := resolved.spreadName, purpose := resolved.spreadPurpose,
          n_cards := nCards, positions := resolved.positions,
          layout_descriptor := resolved.layoutDescriptor,
          source := { type := if truthyStr args.spread_slug then "system" else "custom",
                      spread_id := resolved.spreadId,
                      slug := args.spread_slug } }
      let reading : Reading :=
        { id := uuid₂, created_at := createdAt, spread_id := resolved.spreadId,
          spread_snapshot := snapshot, question := args.question,
          allow_duplicates := false, allow_reversals := true,
          cards := readingCards, rng := rngProvenance }
      let spreadWithCards : SpreadWithCards :=
        { reading_id := uuid₂, question := args.question, spread := snapshot,
          cards := readingCards.map (fun rc =>
            { position_index := rc.position_index,
              card := (allCards.find? (fun c => c.id = rc.card_id)).getD undefinedCard,
              reversed := rc.reversed }) }
      .ok { reading := reading, spreadWithCards := spreadWithCards }

/-! ## Interpretation Handoff fallback — `src/app/src/app/api/chat/thinking.ts`

`requestThinkingInterpretation` makes exactly one model call; on success it
yields the model's chunks, on failure (the `catch` block) it synthesizes
deterministic text from the active spread alone. -/

/-- The fixed first fallback chunk. -/
def fallbackPreamble : String :=
  "\n\n*I sense some interference in my deeper connection, but let me share what I can see...*\n\n"

/-- The per-card fallback chunk of the `catch` block:
`**<name>** in the position of "<positionMeaning>" (<orientation>): <meaning>`. -/
def fallbackCardLine (spread : SpreadWithCards) (pc : PositionedCard) : String :=
  let position := spread.spread.positions.find? (fun p => p.index = pc.position_index)
  let positionMeaning := match position with
    | some p => p.meaning
    | none => "undefined"
  let orientation := if pc.reversed then "reversed" else "upright"
  let meaning := if pc.reversed then pc.card.meaning_reversed else pc.card.meaning
  "**" ++ pc.card.name ++ "** in the position of \"" ++ positionMeaning ++
    "\" (" ++ orientation ++ "): " ++ meaning ++ "\n\n"

/-- The fixed closing fallback chunk (lowercases the question). -/
def fallbackClosing (spread : SpreadWithCards) : String :=
  "\nLet these cards guide your reflection on your question about " ++
    spread.question.toLower ++ "."

/-- The `for` loop of the `catch` block, yield by yield. -/
def fallbackCardChunks (spread : SpreadWithCards) : List PositionedCard → List String
  | [] => []
  | pc :: rest => fallbackCardLine spread pc :: fallbackCardChunks spread rest

/-- All chunks the fallback path yields, in order. -/
def fallbackChunks (spread : SpreadWithCards) : List String :=
  fallbackPreamble :: (fallbackCardChunks spread spread.cards ++ [fallbackClosing spread])

/-- `requestThinkingInterpretation` as a chunk stream: the single
interpretation-model call is the oracle `modelOutcome` (`.ok` with its
filtered content chunks, `.error` when the provider throws). -/
def requestThinkingInterpretation (spread : SpreadWithCards)
    (modelOutcome : Except String (List String)) : List String :=
  match modelOutcome with
  | .ok chunks => chunks
  | .error _ => fallbackChunks spread

/-! ## Summarizer — `src/app/src/lib/summarization.ts` -/

/-- A chat message role. -/
inductive MsgRole where
  | user
  | assistant
  | system
  deriving Repr, DecidableEq

/-- A chat message. -/
structure ChatMsg where
  role : MsgRole
  content : String
  deriving Repr, DecidableEq

/-- Result of a summarization: `{summary, messagesRemoved}`. -/
structure SummarizationResult where
  summary : String
  messagesRemoved : Nat
  deriving Repr, DecidableEq

/-- JS `messages.slice(0, -keepRecent)`: everything except the last
`keepRecent` elements — except that `-0 === 0`, so `keepRecent = 0` yields
the *empty* slice, not the whole list. -/
def sliceDropLast (l : List ChatMsg) (keepRecent : Nat) : List ChatMsg :=
  if keepRecent = 0 then [] else l.take (l.length - keepRecent)

/-- The `contentToSummarize` string fed to the summarization model. -/
def buildSummarizationInput (existingSummary : Option String)
    (toSummarize : List ChatMsg) : String :=
  let prefixPart := match existingSummary with
    | some s => "## Previous Summary\n" ++ s ++ "\n\n"
    | none => ""
  prefixPart ++ "## Conversation to Summarize\n" ++
    String.intercalate "\n\n" (toSummarize.map (fun m =>
      let roleName := match m.role with
        | .user => "User"
        | .assistant => "Reader"
        | .system => "System"
      roleName ++ ": " ++ m.content))

/-- `summarizeConversation`: `none` when the threshold is not exceeded or
the model call fails; otherwise the trimmed summary and the removed count.
The text-generation call is the oracle `model`. -/
def summarizeConversation (messages : List ChatMsg)
    (existingSummary : Option String) (threshold keepRecent : Nat)
    (model : String → Except String String) : Option SummarizationResult :=
  if messages.length ≤ threshold then none
  else
    let toSummarize := sliceDropLast messages keepRecent
    let contentToSummarize := buildSummarizationInput existingSummary toSummarize
    match model contentToSummarize with
    | .ok summary =>
      some { summary := summary.trim, messagesRemoved := toSummarize.length }
    | .error _ => none

/-- The `keepRecent || 3` (and `threshold || 20`) coercion of the
`POST /chat/summarize` route: JS `||` replaces an absent *or zero* value by
the default. -/
def jsOrDefault (value : Option Nat) (dflt : Nat) : Nat :=
  match value with
  | none => dflt
  | some 0 => dflt
  | some k => k

/-! ## Turn Controller — `src/app/src/app/api/chat/route.ts` (`processChat`)

The conversation model, the Draw Engine fetch and the interpretation model
are oracles; everything else (event emission order, the per-iteration
`hasCalledInterpretation` guard, the iteration cap, the error path) is
transliterated.  A Turn's observable behaviour is its ordered list of
stream events. -/

/-- A stream event sent over the SSE channel. -/
inductive SEvent where
  | text (content : String)
  | toolCall (id name : String)
  | toolResult (name result : String)
  | spreadLaid (spread : SpreadWithCards)
  | errorEvt (message : String)
  | done
  deriving Repr, DecidableEq

/-- Parsed arguments of a tool call (the fields the dispatcher reads). -/
structure ToolArgs where
  focus_area : Option String
  deriving Repr, DecidableEq

/-- An accumulated tool call.  `argsResult` is the outcome of
`JSON.parse(toolCall.arguments || unbraced-empty-object)`: `.error` models a parse
throw (which the source performs *outside* the inner try, aborting the
whole Turn). -/
structure ToolCall where
  id : String
  name : String
  argsResult : Except String ToolArgs
  deriving Repr

/-- One conversation-model response: the streamed text deltas and the
assembled tool calls, in emission order. -/
structure ModelResponse where
  textDeltas : List String
  toolCalls : List ToolCall
  deriving Repr

/-- The oracle environment of one Turn. -/
structure ChatEnv where
  /-- Outcome of the j-th conversation-model call (`.error` = the call or
  its stream threw). -/
  script : List (Except String ModelResponse)
  /-- `JSON.stringify` of `executeListSpreads()`. -/
  listSpreadsText : String
  /-- The card catalog (`getAllCards()`), used when appending to the ledger. -/
  allCards : List Card
  deriving Repr

/-- Mutable per-Turn state of the loop body. -/
structure TurnState where
  activeSpread : Option SpreadWithCards
  ledger : List SpreadLedgerEntry
  /-- Outcomes of successive `executeDrawCards` calls. -/
  drawOutcomes : List (Except String SpreadWithCards)
  /-- Outcomes of successive interpretation-model calls (the stream inside
  `requestThinkingInterpretation`). -/
  interpOutcomes : List (Except String (List String))
  /-- Abstract clock for `new Date().toISOString()`. -/
  clock : Nat
  deriving Repr

/-- The static sentinel for a duplicate `request_interpretation` call. -/
def interpretationSentinel : String :=
  "SYSTEM: Interpretation already provided. Do not call this again."

/-- Tool result when no spread has been laid. -/
def noSpreadText : String :=
  "Error: No spread has been laid yet. Please draw cards first."

/-- Tool result after a successful handoff: it instructs the conversation
model to produce a brief closing message. -/
def interpretationClosingText : String :=
  "SYSTEM: You have just shared a complete interpretation with the user. Now briefly invite them to share their thoughts or ask questions. Speak warmly and directly to them. Do NOT summarize or repeat the interpretation."

/-- `JSON.stringify({error: e})` for a failed `draw_cards`. -/
def jsonErrorText (e : String) : String :=
  "\x7b\"error\":\"" ++ e ++ "\"\x7d"

/-- The reading object assembled inline in `route.ts` right after a
successful interpretation, before `createLedgerEntry`. -/
def readingOfActiveSpread (spread : SpreadWithCards) (createdAt : String) :
    Reading :=
  { id := spread.reading_id, created_at := createdAt,
    spread_id := spread.spread.source.spread_id,
    spread_snapshot := spread.spread, question := spread.question,
    allow_duplicates := false, allow_reversals := true,
    cards := spread.cards.map (fun c =>
      { position_index := c.position_index, card_id := c.card.id,
        reversed := c.reversed }),
    rng := { method_used := "fallback", attempts := [] } }

/-- Execute one tool call of a batch: the events it sends, and either the
updated `(state, hasCalledInterpretation)` or the exception text when
argument parsing throws.  Mirrors `route.ts` lines 291-424. -/
def execTool (env : ChatEnv) (st : TurnState) (hasInterp : Bool)
    (tc : ToolCall) : List SEvent × Except String (TurnState × Bool) :=
  match tc.argsResult with
  | .error m => ([], .error m)
  | .ok _args =>
    let callEvt := SEvent.toolCall tc.id tc.name
    if tc.name = "list_spreads" then
      ([callEvt, .toolResult tc.name env.listSpreadsText], .ok (st, hasInterp))
    else if tc.name = "draw_cards" then
      let outcome := st.drawOutcomes.headD (.error "Failed to draw cards")
      let st₁ := { st with drawOutcomes := st.drawOutcomes.tail }
      match outcome with
      | .ok spread =>
        ([callEvt, .spreadLaid spread,
          .toolResult tc.name (formatSpreadForAI spread)],
         .ok ({ st₁ with activeSpread := some spread }, hasInterp))
      | .error e =>
        ([callEvt, .toolResult tc.name (jsonErrorText e)], .ok (st₁, hasInterp))
    else if tc.name = "request_interpretation" then
      if hasInterp then
        ([callEvt, .toolResult tc.name interpretationSentinel], .ok (st, hasInterp))
      else
        match st.activeSpread with
        | none => ([callEvt, .toolResult tc.name noSpreadText], .ok (st, true))
        | some spread =>
          let outcome := st.interpOutcomes.headD (.error "thinking model failed")
          let chunks := requestThinkingInterpretation spread outcome
          let reading := readingOfActiveSpread spread (toString st.clock)
          let st₁ :=
            { st with interpOutcomes := st.interpOutcomes.tail,
                      clock := st.clock + 1,
                      ledger := st.ledger ++ [createLedgerEntry reading env.allCards] }
          ([callEvt, .text "\n\n"] ++ chunks.map SEvent.text ++
            [.text "\n\n", .toolResult tc.name interpretationClosingText],
           .ok (st₁, true))
    else
      ([callEvt, .toolResult tc.name ("Unknown tool: " ++ tc.name)],
       .ok (st, hasInterp))

/-- Execute a batch of tool calls strictly in order, stopping at a parse
throw (events already sent are kept). -/
def execTools (env : ChatEnv) (st : TurnState) (hasInterp : Bool) :
    List ToolCall → List SEvent × Except String TurnState
  | [] => ([], .ok st)
  | tc :: rest =>
    match execTool env st hasInterp tc with
    | (evs, .error m) => (evs, .error m)
    | (evs, .ok (st₁, h₁)) =>
      let (evs₂, r) := execTools env st₁ h₁ rest
      (evs ++ evs₂, r)

/-- The `while (toolIterations < maxToolIterations)` loop.  `fuel` is the
number of remaining iterations, `callIdx` indexes the script.  Returns the
events emitted inside the loop and `some m` when an exception of message
`m` escaped to the outer catch.  Note `hasCalledInterpretation` is
(re-)initialized to `false` at each iteration, exactly as in the source. -/
def runLoop (env : ChatEnv) : Nat → Nat → TurnState → List SEvent × Option String
  | 0, _, _ => ([], none)
  | fuel + 1, callIdx, st =>
    match env.script.getD callIdx (.error "model call failed") with
    | .error m => ([], some m)
    | .ok resp =>
      let textEvs := (resp.textDeltas.filter (fun d => !(d = ""))).map SEvent.text
      if resp.toolCalls.isEmpty then (textEvs, none)
      else
        match execTools env st false resp.toolCalls with
        | (evs, .error m) => (textEvs ++ evs, some m)
        | (evs, .ok st₁) =>
          let (evs₂, r) := runLoop env fuel (callIdx + 1) st₁
          (textEvs ++ evs ++ evs₂, r)

/-- The fixed iteration cap. -/
def maxToolIterations : Nat := 5

/-- `processChat`: run the tool loop and terminate the stream — `done`
after a normal exit, `error` (and *no* `done`) when an exception reached
the outer catch. -/
def processChat (activeSpread : Option SpreadWithCards)
    (spreadLedger : List SpreadLedgerEntry)
    (drawOutcomes : List (Except String SpreadWithCards))
    (interpOutcomes : List (Except String (List String)))
    (env : ChatEnv) : List SEvent :=
  let st₀ : TurnState :=
    { activeSpread := activeSpread, ledger := spreadLedger,
      drawOutcomes := drawOutcomes, interpOutcomes := interpOutcomes,
      clock := 0 }
  match runLoop env maxToolIterations 0 st₀ with
  | (evs, none) => evs ++ [SEvent.done]
  | (evs, some m) => evs ++ [SEvent.errorEvt m]

/-! ## Lemmas about the Draw Engine -/

/-- Helper: a tier is entered only while fewer than `n` draws are accepted. -/
theorem runTiers_cons_of_lt (n : Nat) (aD aR : Bool) (es : EngineState)
    (t : RngTier) (rest : List RngTier) (h : es.st.draws.length < n) :
    runTiers n aD aR es (t :: rest) =
      runTiers n aD aR (tierStep n aD aR es t) rest := by
  conv_lhs => rw [runTiers]
  rw [if_neg (Nat.not_le.mpr h)]

/-- Helper: once `n` draws are accepted the cascade stops. -/
theorem runTiers_cons_of_ge (n : Nat) (aD aR : Bool) (es : EngineState)
    (t : RngTier) (rest : List RngTier) (h : es.st.draws.length ≥ n) :
    runTiers n aD aR es (t :: rest) = es := by
  conv_lhs => rw [runTiers]
  rw [if_pos h]

/-- One sampling step adds at most one draw. -/
theorem stepNum_draws_length_le (aD aR : Bool) (st : DrawState) (num : Nat) :
    (stepNum aD aR st num).draws.length ≤ st.draws.length + 1 := by
  unfold stepNum
  split
  · omega
  · dsimp only
    split
    · omega
    · simp

/-- The inner sampling loop never exceeds `n` accepted draws. -/
theorem processNumbers_length_le (n : Nat) (aD aR : Bool) :
    ∀ (nums : List Nat) (st : DrawState), st.draws.length ≤ n →
      (processNumbers n aD aR st nums).draws.length ≤ n := by
  intro nums
  induction nums with
  | nil => intro st h; simpa [processNumbers] using h
  | cons num rest ih =>
    intro st h
    unfold processNumbers
    by_cases hlen : st.draws.length ≥ n
    · rw [if_pos hlen]; exact h
    · rw [if_neg hlen]
      apply ih
      have := stepNum_draws_length_le aD aR st num
      omega

/-- A tier never pushes the accepted count beyond `n`. -/
theorem tierStep_length_le (n : Nat) (aD aR : Bool) (es : EngineState)
    (t : RngTier) (h : es.st.draws.length ≤ n) :
    (tierStep n aD aR es t).st.draws.length ≤ n := by
  unfold tierStep
  cases t.outcome with
  | ok numbers =>
    dsimp only
    exact processNumbers_length_le n aD aR numbers es.st h
  | error e => exact h

/-- The whole cascade never exceeds `n` accepted draws. -/
theorem runTiers_length_le (n : Nat) (aD aR : Bool) :
    ∀ (tiers : List RngTier) (es : EngineState), es.st.draws.length ≤ n →
      (runTiers n aD aR es tiers).st.draws.length ≤ n := by
  intro tiers
  induction tiers with
  | nil => intro es h; simpa [runTiers] using h
  | cons t rest ih =>
    intro es h
    unfold runTiers
    split
    · exact h
    · exact ih _ (tierStep_length_le n aD aR es t h)

/-- Uniqueness invariant for `allowDuplicates = false`: accepted card ids are
pairwise distinct and all recorded in the used-set. -/
def UsedInv (st : DrawState) : Prop :=
  (st.draws.map CardDraw.cardId).Nodup ∧ ∀ d ∈ st.draws, d.cardId ∈ st.used

/-- One sampling step preserves the uniqueness invariant. -/
theorem stepNum_inv (aR : Bool) (st : DrawState) (num : Nat) (h : UsedInv st) :
    UsedInv (stepNum false aR st num) := by
  unfold stepNum
  split
  · exact h
  · dsimp only
    by_cases hc : st.used.contains (num % TOTAL_ORIENTED_STATES % TOTAL_CARDS)
    · rw [if_pos (by simpa using hc)]
      exact h
    · rw [if_neg (by simpa using hc)]
      have hnotmem : num % TOTAL_ORIENTED_STATES % TOTAL_CARDS ∉ st.used := by
        simpa using hc
      constructor
      · simp only [List.map_append, List.map_cons, List.map_nil]
        rw [List.nodup_append]
        refine ⟨h.1, List.nodup_singleton _, ?_⟩
        intro x hx hxs
        simp at hxs
        rcases List.mem_map.mp hx with ⟨d, hd, hid⟩
        exact hnotmem (hxs ▸ hid ▸ h.2 d hd)
      · intro d hd
        rw [if_pos (show (!false) = true by decide)]
        rcases List.mem_append.mp hd with hdl | hdr
        · exact List.mem_append.mpr (Or.inl (h.2 d hdl))
        · simp at hdr
          simp [hdr, List.mem_append]

/-- The inner loop preserves the uniqueness invariant. -/
theorem processNumbers_inv (n : Nat) (aR : Bool) :
    ∀ (nums : List Nat) (st : DrawState), UsedInv st →
      UsedInv (processNumbers n false aR st nums) := by
  intro nums
  induction nums with
  | nil => intro st h; simpa [processNumbers] using h
  | cons num rest ih =>
    intro st h
    unfold processNumbers
    split
    · exact h
    · exact ih _ (stepNum_inv aR st num h)

/-- A tier preserves the uniqueness invariant. -/
theorem tierStep_inv (n : Nat) (aR : Bool) (es : EngineState) (t : RngTier)
    (h : UsedInv es.st) : UsedInv (tierStep n false aR es t).st := by
  unfold tierStep
  cases t.outcome with
  | ok numbers =>
    dsimp only
    exact processNumbers_inv n aR numbers es.st h
  | error e => exact h

/-- The cascade preserves the uniqueness invariant. -/
theorem runTiers_inv (n : Nat) (aR : Bool) :
    ∀ (tiers : List RngTier) (es : EngineState), UsedInv es.st →
      UsedInv (runTiers n false aR es tiers).st := by
  intro tiers
  induction tiers with
  | nil => intro es h; simpa [runTiers] using h
  | cons t rest ih =>
    intro es h
    unfold runTiers
    split
    · exact h
    · exact ih _ (tierStep_inv n aR es t h)

/-! ## Claims about the Draw Engine (C4, C5, C6) -/

/-- C4 (counterexample): the claim asserts the rejection limit is `65436`
and that the stub `[70000, 10, 65440, 100]` with `n = 2` yields
`{cardId 10, upright}` and `{cardId 22, reversed}`.  In the code the limit
is `floor(65536 / 156) * 156 = 65520`, so `65440` is *accepted*
(`65440 % 156 = 76`, upright) and `100` is never consumed: the stub yields
`{cardId 10, upright}` and `{cardId 76, upright}`, not the claimed pair,
and `stepNum` does not discard `65440`. -/
theorem claimC4_counterexample :
    (drawCards 2 true true (.ok [70000, 10, 65440, 100]) (.ok []) (.ok [])).draws =
      [{ cardId := 10, reversed := false }, { cardId := 76, reversed := false }] ∧
    ¬ ((drawCards 2 true true (.ok [70000, 10, 65440, 100]) (.ok []) (.ok [])).draws =
      [{ cardId := 10, reversed := false }, { cardId := 22, reversed := true }]) ∧
    ¬ (stepNum true true { draws := [], used := [] } 65440 =
      { draws := [], used := [] }) := by
  decide

/-- C4 (amended): the Draw Engine's rejection limit is
`floor(65536 / 156) * 156 = 65520` (not 65436).  Every raw value
`v ≥ 65520` is discarded without affecting the state; every accepted value
`v < 65520` (not blocked by the uniqueness check) contributes exactly one
draw with `orientedState = v % 156`, `cardId = orientedState % 78`,
`reversed = orientedState ≥ 78` (forced upright when `allowReversals =
false`), consuming no further entropy.  The stub `[70000, 10, 65440, 100]`
with `n = 2, allowDuplicates = true, allowReversals = true` yields exactly
`{cardId 10, upright}` (from 10) and `{cardId 76, upright}` (from 65440). -/
theorem claimC4_amended :
    REJECTION_LIMIT = 65520 ∧
    (∀ (aD aR : Bool) (st : DrawState) (num : Nat), num ≥ 65520 →
      stepNum aD aR st num = st) ∧
    (∀ (aD aR : Bool) (st : DrawState) (num : Nat),
      num < 65520 → (aD = true ∨ st.used.contains (num % 156 % 78) = false) →
      stepNum aD aR st num =
        { draws := st.draws ++
            [{ cardId := num % 156 % 78,
               reversed := if aR then decide (num % 156 ≥ 78) else false }],
          used := if !aD then st.used ++ [num % 156 % 78] else st.used }) ∧
    (drawCards 2 true true (.ok [70000, 10, 65440, 100]) (.ok []) (.ok [])).draws =
      [{ cardId := 10, reversed := false }, { cardId := 76, reversed := false }] := by
  refine ⟨by decide, ?_, ?_, by decide⟩
  · intro aD aR st num hge
    unfold stepNum
    rw [if_pos (by simpa [REJECTION_LIMIT, UINT16_MAX, TOTAL_ORIENTED_STATES] using hge)]
  · intro aD aR st num hlt hok
    unfold stepNum
    rw [if_neg (by simp [REJECTION_LIMIT, UINT16_MAX, TOTAL_ORIENTED_STATES]; omega)]
    dsimp only
    rcases hok with haD | hc
    · subst haD
      rw [if_neg (by simp)]
      simp [TOTAL_ORIENTED_STATES, TOTAL_CARDS]
    · rw [if_neg (by
        simp only [TOTAL_ORIENTED_STATES, TOTAL_CARDS, Bool.not_eq_true,
          Bool.and_eq_true, not_and]
        intro _
        simpa using hc)]
      simp [TOTAL_ORIENTED_STATES, TOTAL_CARDS]

/-- C4 (witness): the amended theorem applied at concrete inputs — 70000
is discarded, and 100 is accepted as `{cardId 22, reversed}` under
`allowDuplicates = false` with an empty used-set. -/
theorem claimC4_witness :
    stepNum true true { draws := [], used := [] } 70000 =
      { draws := [], used := [] } ∧
    stepNum false true { draws := [], used := [] } 100 =
      { draws := [{ cardId := 22, reversed := true }], used := [22] } := by
  constructor
  · exact claimC4_amended.2.1 true true _ 70000 (by decide)
  · have h := claimC4_amended.2.2.1 false true { draws := [], used := [] } 100
      (by decide) (Or.inr (by decide))
    simpa using h

/-- C5 (counterexample): the claim asserts that a valid request
(`1 ≤ n ≤ 78`, `allowDuplicates = false`) which does not fail returns
exactly `n` draws, tier exhaustion being a failure.  In the code tier
exhaustion is *not* a failure: with all three tiers throwing, `n = 1`
returns a successful response whose `draws` array is empty (length 0 ≠ 1). -/
theorem claimC5_counterexample :
    (postDraw 1 false true (.error "a") (.error "b") (.error "c")).toOption.map
      (fun resp => resp.draws.length) = some 0 ∧
    ¬ ((postDraw 1 false true (.error "a") (.error "b") (.error "c")).toOption.map
      (fun resp => resp.draws.length) = some 1) := by
  constructor
  · rfl
  · decide

/-- C5 (amended): for every request with `1 ≤ n ≤ 78` and
`allowDuplicates = false` the call succeeds (validation passes and the
engine itself never throws), the returned `draws` have pairwise-distinct
`cardId`s, and their number is at most `n` — exactly `n` when the tiers
supplied enough accepted values, but tier exhaustion yields a *short*
successful result rather than a failure. -/
theorem claimC5_amended (n : Nat) (qrng randomOrg fallback : Except String (List Nat))
    (h1 : 1 ≤ n) (h2 : n ≤ 78) :
    ∃ resp, postDraw n false true qrng randomOrg fallback = .ok resp ∧
      resp.draws.length ≤ n ∧ (resp.draws.map CardDraw.cardId).Nodup := by
  unfold postDraw
  rw [if_neg (by omega)]
  rw [if_neg (by simp [TOTAL_CARDS]; omega)]
  refine ⟨_, rfl, ?_, ?_⟩
  · unfold drawCards
    dsimp only
    exact runTiers_length_le n false true _ _ (by simp)
  · unfold drawCards
    dsimp only
    exact (runTiers_inv n true _ _ (by constructor <;> simp [UsedInv])).1

/-- C5 (witness): the amended theorem at `n = 3` with a concrete entropy
stub that forces a duplicate rejection (`0, 1, 0, 79, 200`: base ids
`0, 1, 0 (dup), 1 (dup), 44`). -/
theorem claimC5_witness :
    ∃ resp, postDraw 3 false true (.error "boom") (.ok [0, 1, 0, 79, 200]) (.ok []) =
      .ok resp ∧ resp.draws.length ≤ 3 ∧ (resp.draws.map CardDraw.cardId).Nodup :=
  claimC5_amended 3 (.error "boom") (.ok [0, 1, 0, 79, 200]) (.ok [])
    (by decide) (by decide)

/-- C6 (confirmed): whenever tier 1 (`qrng`) throws and tier 2
(`random_org`) resolves, the call still returns a response whose
provenance records the failed first attempt (success flag `false`, the
error message, bounded timestamps) and the successful second attempt, has
at least two attempts, and reports `method_used = "random_org"` — tier 2's
identifier. -/
theorem claimC6 (n : Nat) (aD aR : Bool) (e : String) (nums : List Nat)
    (fallback : Except String (List Nat)) (hn : 1 ≤ n) :
    ((drawCards n aD aR (.error e) (.ok nums) fallback).provenance.method_used =
      "random_org") ∧
    2 ≤ (drawCards n aD aR (.error e) (.ok nums) fallback).provenance.attempts.length ∧
    ((drawCards n aD aR (.error e) (.ok nums) fallback).provenance.attempts.head?.map
      (fun a => (a.method, a.success, a.error)) = some ("qrng", false, some e)) ∧
    (((drawCards n aD aR (.error e) (.ok nums) fallback).provenance.attempts)[1]?.map
      (fun a => (a.method, a.success)) = some ("random_org", true)) ∧
    ∀ a ∈ (drawCards n aD aR (.error e) (.ok nums) fallback).provenance.attempts,
      a.started_at < a.ended_at := by
  unfold drawCards
  dsimp only
  rw [runTiers_cons_of_lt n aD aR _ _ _ (by simpa using hn)]
  rw [show tierStep n aD aR
      { st := { draws := [], used := [] }, attempts := [], clock := 0 }
      { method := "qrng", provider := "anu_qrng", outcome := .error e } =
      { st := { draws := [], used := [] },
        attempts := [{ method := "qrng", provider := "anu_qrng",
                       started_at := 0, ended_at := 1, success := false,
                       error := some e, requested := none, received := none }],
        clock := 2 } from rfl]
  rw [runTiers_cons_of_lt n aD aR _ _ _ (by simpa using hn)]
  rw [show tierStep n aD aR
      { st := { draws := [], used := [] },
        attempts := [{ method := "qrng", provider := "anu_qrng",
                       started_at := 0, ended_at := 1, success := false,
                       error := some e, requested := none, received := none }],
        clock := 2 }
      { method := "random_org", provider := "random_org", outcome := .ok nums } =
      { st := processNumbers n aD aR { draws := [], used := [] } nums,
        attempts := [{ method := "qrng", provider := "anu_qrng",
                       started_at := 0, ended_at := 1, success := false,
                       error := some e, requested := none, received := none },
                     { method := "random_org", provider := "random_org",
                       started_at := 2, ended_at := 3, success := true,
                       error := none, requested := some (min (n * 3) 1024),
                       received := some nums.length }],
        clock := 4 } from rfl]
  by_cases hdone :
      (processNumbers n aD aR { draws := [], used := [] } nums).draws.length ≥ n
  · rw [runTiers_cons_of_ge n aD aR _ _ _ hdone]
    refine ⟨rfl, by simp, rfl, rfl, ?_⟩
    intro a ha
    simp only [List.mem_cons, List.not_mem_nil, or_false] at ha
    rcases ha with ha | ha <;> simp [ha]
  · rw [runTiers_cons_of_lt n aD aR _ _ _ (Nat.lt_of_not_le hdone)]
    cases fallback with
    | ok fnums =>
      refine ⟨rfl, by simp [runTiers, tierStep], ?_, ?_, ?_⟩
      · simp [runTiers, tierStep]
      · simp [runTiers, tierStep]
      · intro a ha
        simp [runTiers, tierStep] at ha
        rcases ha with ha | ha | ha <;> simp [ha]
    | error fe =>
      refine ⟨rfl, by simp [runTiers, tierStep], ?_, ?_, ?_⟩
      · simp [runTiers, tierStep]
      · simp [runTiers, tierStep]
      · intro a ha
        simp [runTiers, tierStep] at ha
        rcases ha with ha | ha | ha <;> simp [ha]

/-- C6 (witness): the theorem applied at `n = 3` with tier 1 throwing
`"boom"` and tier 2 supplying `[0, 1, 0, 79, 200]`. -/
theorem claimC6_witness :
    ((drawCards 3 false true (.error "boom") (.ok [0, 1, 0, 79, 200])
        (.ok [])).provenance.method_used = "random_org") ∧
    2 ≤ (drawCards 3 false true (.error "boom") (.ok [0, 1, 0, 79, 200])
        (.ok [])).provenance.attempts.length := by
  have h := claimC6 3 false true "boom" [0, 1, 0, 79, 200] (.ok []) (by decide)
  exact ⟨h.1, h.2.1⟩

/-! ## Shared concrete fixtures -/

/-- A concrete card used by the concrete-run theorems. -/
def demoCard : Card :=
  { id := 7, name := "The Chariot", meaning := "Willpower and victory",
    meaning_reversed := "Lack of direction", keywords := ["drive", "control"],
    keywords_reversed := ["drift"] }

/-- A concrete one-position spread snapshot. -/
def demoSnapshot : SpreadSnapshot :=
  { name := "One Card", purpose := "A single focus card", n_cards := 1,
    positions := [{ index := 0, meaning := "The heart of the matter" }],
    layout_descriptor := "1",
    source := { type := "system", spread_id := "spread_one", slug := some "one_card" } }

/-- A concrete laid spread with one upright card. -/
def demoSpread : SpreadWithCards :=
  { reading_id := "r-demo", question := "What should I focus on",
    spread := demoSnapshot,
    cards := [{ position_index := 0, card := demoCard, reversed := false }] }

/-! ## Claim C7 — Interpretation fallback text -/

/-- An apostrophe as a one-character string. -/
def apostrophe : String := String.singleton (Char.ofNat 39)

/-- The per-card entry format asserted by the specification sentence
(`"<cardName> (upright|reversed) in position '<positionMeaning>':
<meaning>"`), stated verbatim for comparison with the source's
`fallbackCardLine`. -/
def specFallbackLine (spread : SpreadWithCards) (pc : PositionedCard) : String :=
  let position := spread.spread.positions.find? (fun p => p.index = pc.position_index)
  let positionMeaning := match position with
    | some p => p.meaning
    | none => "undefined"
  let orientation := if pc.reversed then "reversed" else "upright"
  let meaning := if pc.reversed then pc.card.meaning_reversed else pc.card.meaning
  pc.card.name ++ " (" ++ orientation ++ ") in position " ++ apostrophe ++
    positionMeaning ++ apostrophe ++ ": " ++ meaning

/-- C7 (counterexample): the spec's quoted per-card template
`<cardName> (upright|reversed) in position '<positionMeaning>': <meaning>`
is not the text the fallback emits — the code writes
`**<cardName>** in the position of "<positionMeaning>" (<orientation>):
<meaning>` — so the spec-form entry appears nowhere among the fallback's
chunks for a concrete spread. -/
theorem claimC7_counterexample :
    fallbackCardLine demoSpread
        { position_index := 0, card := demoCard, reversed := false } ≠
      specFallbackLine demoSpread
        { position_index := 0, card := demoCard, reversed := false } ∧
    specFallbackLine demoSpread
        { position_index := 0, card := demoCard, reversed := false } ∉
      fallbackChunks demoSpread := by
  decide

/-- Helper: the fallback loop emits exactly one line per positioned card,
in list order. -/
theorem fallbackCardChunks_eq_map (spread : SpreadWithCards) :
    ∀ cards : List PositionedCard,
      fallbackCardChunks spread cards = cards.map (fallbackCardLine spread) := by
  intro cards
  induction cards with
  | nil => rfl
  | cons pc rest ih => simp [fallbackCardChunks, ih]

/-- C7 (amended): when the interpretation-model call fails, the handoff
does not retry; it deterministically synthesizes the fallback from the
already-known card data alone — a fixed preamble, then one entry per
positioned card in stored (position) order of the form
`**<cardName>** in the position of "<positionMeaning>" (<orientation>):
<meaning>`, then a closing line quoting the lowercased question.  On a
successful call the model's own chunks are streamed unchanged. -/
theorem claimC7_amended (spread : SpreadWithCards) (e : String) :
    requestThinkingInterpretation spread (.error e) =
      fallbackPreamble ::
        (spread.cards.map (fallbackCardLine spread) ++ [fallbackClosing spread]) ∧
    (∀ chunks, requestThinkingInterpretation spread (.ok chunks) = chunks) := by
  constructor
  · show fallbackChunks spread = _
    unfold fallbackChunks
    rw [fallbackCardChunks_eq_map]
  · intro chunks
    rfl

/-! ## Claim C10 — ledger entry question summary -/

/-- C10 (confirmed): the ledger entry's `question_summary` is at most 100
characters — a question longer than 100 characters becomes its first 97
characters followed by `"..."`, a question of at most 100 characters is
copied verbatim — and `reading_id`, `spread_name`, `created_at` are copied
unchanged. -/
theorem claimC10 (reading : Reading) (allCards : List Card) :
    (createLedgerEntry reading allCards).question_summary.length ≤ 100 ∧
    (reading.question.length > 100 →
      (createLedgerEntry reading allCards).question_summary =
        String.mk (reading.question.data.take 97) ++ "...") ∧
    (reading.question.length ≤ 100 →
      (createLedgerEntry reading allCards).question_summary = reading.question) ∧
    (createLedgerEntry reading allCards).reading_id = reading.id ∧
    (createLedgerEntry reading allCards).spread_name = reading.spread_snapshot.name ∧
    (createLedgerEntry reading allCards).created_at = reading.created_at := by
  unfold createLedgerEntry
  dsimp only
  refine ⟨?_, ?_, ?_, rfl, rfl, rfl⟩
  · by_cases h : reading.question.length > 100
    · rw [if_pos h]
      rw [String.length_append]
      have h1 : (String.mk (reading.question.data.take 97)).length =
          (reading.question.data.take 97).length := rfl
      have h2 : ("..." : String).length = 3 := rfl
      have h3 : reading.question.length = reading.question.data.length := rfl
      rw [h1, h2, List.length_take]
      omega
    · rw [if_neg h]
      omega
  · intro h
    rw [if_pos h]
  · intro h
    rw [if_neg (by omega)]

/-- A concrete reading with a short question. -/
def demoReadingShort : Reading :=
  { id := "r1", created_at := "t0", spread_id := "spread_one",
    spread_snapshot := demoSnapshot, question := "Will it rain",
    allow_duplicates := false, allow_reversals := true,
    cards := [{ position_index := 0, card_id := 7, reversed := true }],
    rng := { method_used := "fallback", attempts := [] } }

/-- A concrete reading whose question is 150 characters long. -/
def demoReadingLong : Reading :=
  { demoReadingShort with
      question := String.mk (List.replicate 150 (Char.ofNat 113)) }

set_option maxRecDepth 4000 in
/-- C10 (witness): the theorem at a short question (copied verbatim) and at
a 150-character question (truncated to 97 characters plus `"..."`). -/
theorem claimC10_witness :
    (createLedgerEntry demoReadingShort []).question_summary = "Will it rain" ∧
    (createLedgerEntry demoReadingLong []).question_summary =
      String.mk (demoReadingLong.question.data.take 97) ++ "..." ∧
    (createLedgerEntry demoReadingLong []).question_summary.length ≤ 100 := by
  refine ⟨(claimC10 demoReadingShort []).2.2.1 (by decide), ?_, ?_⟩
  · exact (claimC10 demoReadingLong []).2.1 (by decide)
  · exact (claimC10 demoReadingLong []).1

/-! ## Claim C8 — summarization trigger, input and removed count -/

/-- Helper: whenever `summarizeConversation` returns a result and at least
one message is kept, the removed count is the number of messages excluding
the last `keepRecent`. -/
theorem summarize_messagesRemoved (messages : List ChatMsg)
    (existingSummary : Option String) (threshold keepRecent : Nat)
    (model : String → Except String String) (r : SummarizationResult)
    (hk : 1 ≤ keepRecent)
    (h : summarizeConversation messages existingSummary threshold keepRecent model =
      some r) :
    r.messagesRemoved = messages.length - keepRecent := by
  unfold summarizeConversation at h
  by_cases ht : messages.length ≤ threshold
  · rw [if_pos ht] at h
    cases h
  · rw [if_neg ht] at h
    dsimp only at h
    rcases hm : model (buildSummarizationInput existingSummary
        (sliceDropLast messages keepRecent)) with e | s
    · rw [hm] at h
      cases h
    · rw [hm] at h
      have hr := Option.some.inj h
      have : r.messagesRemoved = (sliceDropLast messages keepRecent).length := by
        rw [← hr]
      rw [this]
      unfold sliceDropLast
      rw [if_neg (by omega), List.length_take]
      exact min_eq_left (Nat.sub_le _ _)

/-- C8 (confirmed, for the `keepRecent ≥ 1` values every caller supplies —
the summarize route coerces an absent or zero `keepRecent` to 3): a list
not exceeding the threshold produces no summarization; an exceeding list
feeds the model exactly the existing summary plus all messages except the
last `keepRecent`, and returns `messagesRemoved` equal to the number of
messages excluding the last `keepRecent`; hence two calls on identical
inputs (even with different model oracles) agree on `messagesRemoved`. -/
theorem claimC8 (messages : List ChatMsg) (existingSummary : Option String)
    (threshold keepRecent : Nat) (m₁ m₂ : String → Except String String)
    (hk : 1 ≤ keepRecent) :
    (messages.length ≤ threshold →
      summarizeConversation messages existingSummary threshold keepRecent m₁ = none) ∧
    (threshold < messages.length →
      summarizeConversation messages existingSummary threshold keepRecent m₁ =
        (match m₁ (buildSummarizationInput existingSummary
            (messages.take (messages.length - keepRecent))) with
         | .ok s => some { summary := s.trim,
                           messagesRemoved := messages.length - keepRecent }
         | .error _ => none)) ∧
    (∀ r₁ r₂,
      summarizeConversation messages existingSummary threshold keepRecent m₁ = some r₁ →
      summarizeConversation messages existingSummary threshold keepRecent m₂ = some r₂ →
      r₁.messagesRemoved = r₂.messagesRemoved) ∧
    (∀ r,
      summarizeConversation messages existingSummary threshold keepRecent m₁ = some r →
      r.messagesRemoved = messages.length - keepRecent) := by
  have hslice : sliceDropLast messages keepRecent =
      messages.take (messages.length - keepRecent) := by
    unfold sliceDropLast
    rw [if_neg (by omega)]
  refine ⟨?_, ?_, ?_, ?_⟩
  · intro h
    unfold summarizeConversation
    rw [if_pos h]
  · intro h
    unfold summarizeConversation
    rw [if_neg (by omega)]
    dsimp only
    rw [hslice]
    rcases hm : m₁ (buildSummarizationInput existingSummary
        (messages.take (messages.length - keepRecent))) with e | s
    · rfl
    · have hlen : (messages.take (messages.length - keepRecent)).length =
          messages.length - keepRecent := by
        rw [List.length_take]
        exact min_eq_left (Nat.sub_le _ _)
      dsimp only
      rw [hlen]
  · intro r₁ r₂ h₁ h₂
    rw [summarize_messagesRemoved messages existingSummary threshold keepRecent m₁ r₁ hk h₁,
      summarize_messagesRemoved messages existingSummary threshold keepRecent m₂ r₂ hk h₂]
  · intro r h
    exact summarize_messagesRemoved messages existingSummary threshold keepRecent m₁ r hk h

/-- Five concrete user messages. -/
def demoMessages : List ChatMsg :=
  [ { role := .user, content := "m1" }, { role := .assistant, content := "m2" },
    { role := .user, content := "m3" }, { role := .assistant, content := "m4" },
    { role := .user, content := "m5" } ]

/-- C8 (witness): with 5 messages, threshold 10 nothing happens; with
threshold 4 and `keepRecent = 3` the summary is produced and
`messagesRemoved = 2`; and the route-level `keepRecent || 3` coercion never
passes 0 down. -/
theorem claimC8_witness :
    summarizeConversation demoMessages none 10 3 (fun _ => .ok " A summary. ") =
      none ∧
    (summarizeConversation demoMessages none 4 3 (fun _ => .ok " A summary. ")).map
      (fun r => r.messagesRemoved) = some 2 ∧
    1 ≤ jsOrDefault (some 0) 3 := by
  refine ⟨?_, ?_, by decide⟩
  · exact (claimC8 demoMessages none 10 3 (fun _ => .ok " A summary. ")
      (fun _ => .ok " A summary. ") (by decide)).1 (by decide)
  · have h := (claimC8 demoMessages none 4 3 (fun _ => .ok " A summary. ")
      (fun _ => .ok " A summary. ") (by decide)).2.1 (by decide)
    rw [h]
    rfl

/-! ## Claim C9 — spread resolution of the `draw_cards` tool -/

/-- C9 (confirmed): a supplied (truthy) slug that does not resolve yields
the unknown-spread error; neither a slug nor (non-empty) custom positions
yields the must-provide error; a resolvable slug builds the built-in
descriptor from the catalog entry; non-empty custom positions build a
synthesized custom descriptor whose positions carry the caller's meanings
in order. -/
theorem claimC9 (catalog : List SystemSpread) (uuid : String)
    (args : DrawCardsArgs) :
    (truthyStr args.spread_slug = true →
      getSpreadBySlug catalog (args.spread_slug.getD "") = none →
      ∃ rest, resolveSpread catalog uuid args =
        .error ("Unknown spread: " ++ rest)) ∧
    (truthyStr args.spread_slug = false →
      truthyPositions args.custom_positions = false →
      resolveSpread catalog uuid args =
        .error "Must provide either spread_slug or custom_positions") ∧
    (truthyStr args.spread_slug = true →
      ∀ spread, getSpreadBySlug catalog (args.spread_slug.getD "") = some spread →
      resolveSpread catalog uuid args =
        .ok { spreadName := spread.name, spreadPurpose := spread.purpose,
              positions := spread.positions,
              layoutDescriptor := spread.layout_descriptor,
              spreadId := spread.id }) ∧
    (truthyStr args.spread_slug = false →
      ∀ ps, args.custom_positions = some ps → 0 < ps.length →
      resolveSpread catalog uuid args =
        .ok { spreadName := "Custom Spread",
              spreadPurpose := "A custom spread created for this reading",
              positions := ps.enum.map (fun m => { index := m.1, meaning := m.2 }),
              layoutDescriptor := String.intercalate " "
                ((List.range ps.length).map (fun i => toString (i + 1))),
              spreadId := "custom_" ++ uuid }) := by
  refine ⟨?_, ?_, ?_, ?_⟩
  · intro h1 h2
    refine ⟨args.spread_slug.getD "" ++ (". Available spreads: " ++
      String.intercalate ", " (catalog.map (fun s => s.slug))), ?_⟩
    unfold resolveSpread
    rw [if_pos h1]
    dsimp only
    rw [h2]
    dsimp only
    rw [String.append_assoc, String.append_assoc]
  · intro h1 h2
    unfold resolveSpread
    rw [if_neg (by simp [h1]), if_neg (by simp [h2])]
  · intro h1 spread h2
    unfold resolveSpread
    rw [if_pos h1]
    dsimp only
    rw [h2]
  · intro h1 ps h2 h3
    unfold resolveSpread
    rw [if_neg (by simp [h1]), if_pos (by simp [truthyPositions, h2, h3])]
    dsimp only
    rw [h2]
    rfl

/-- A concrete two-spread catalog. -/
def demoCatalog : List SystemSpread :=
  [ { id := "spread_one", slug := "one_card", name := "One Card",
      purpose := "A single focus card", n_cards := 1,
      positions := [{ index := 0, meaning := "The heart of the matter" }],
      layout_descriptor := "1" },
    { id := "spread_two", slug := "two_paths", name := "Two Paths",
      purpose := "Compare two options", n_cards := 2,
      positions := [{ index := 0, meaning := "Path A" },
                    { index := 1, meaning := "Path B" }],
      layout_descriptor := "1 2" } ]

/-- C9 (witness): the theorem at an unknown slug, at missing inputs, at a
resolvable slug and at two custom positions. -/
theorem claimC9_witness :
    (∃ rest, resolveSpread demoCatalog "u1"
        { spread_slug := some "bogus", custom_positions := none, question := "Q" } =
      .error ("Unknown spread: " ++ rest)) ∧
    resolveSpread demoCatalog "u1"
        { spread_slug := none, custom_positions := some [], question := "Q" } =
      .error "Must provide either spread_slug or custom_positions" ∧
    resolveSpread demoCatalog "u1"
        { spread_slug := some "two_paths", custom_positions := none, question := "Q" } =
      .ok { spreadName := "Two Paths", spreadPurpose := "Compare two options",
            positions := [{ index := 0, meaning := "Path A" },
                          { index := 1, meaning := "Path B" }],
            layoutDescriptor := "1 2", spreadId := "spread_two" } ∧
    resolveSpread demoCatalog "u1"
        { spread_slug := none, custom_positions := some ["Past", "Future"],
          question := "Q" } =
      .ok { spreadName := "Custom Spread",
            spreadPurpose := "A custom spread created for this reading",
            positions := [{ index := 0, meaning := "Past" },
                          { index := 1, meaning := "Future" }],
            layoutDescriptor := "1 2", spreadId := "custom_u1" } := by
  refine ⟨?_, ?_, ?_, ?_⟩
  · exact (claimC9 demoCatalog "u1"
      { spread_slug := some "bogus", custom_positions := none, question := "Q" }).1
      (by decide) (by decide)
  · exact (claimC9 demoCatalog "u1"
      { spread_slug := none, custom_positions := some [], question := "Q" }).2.1
      (by decide) (by decide)
  · have h := (claimC9 demoCatalog "u1"
      { spread_slug := some "two_paths", custom_positions := none,
        question := "Q" }).2.2.1 (by decide) (demoCatalog.get ⟨1, by decide⟩) (by decide)
    rw [h]
    rfl
  · have h := (claimC9 demoCatalog "u1"
      { spread_slug := none, custom_positions := some ["Past", "Future"],
        question := "Q" }).2.2.2 (by decide) ["Past", "Future"] rfl (by decide)
    rw [h]
    rfl

/-! ## Event-trace predicates and fixtures for the Turn Controller claims -/

/-- Terminal stream events (`done` / `error`). -/
def isTerminalEvent : SEvent → Bool
  | .done => true
  | .errorEvt _ => true
  | _ => false

/-- `text` events. -/
def isTextEvent : SEvent → Bool
  | .text _ => true
  | _ => false

/-- Whether any `text` event follows the first *successful*
`request_interpretation` tool result (the one carrying the
closing-instruction sentinel) in a trace. -/
def textAfterHandoffSuccess : List SEvent → Bool
  | [] => false
  | .toolResult name result :: rest =>
    if name = "request_interpretation" && result = interpretationClosingText then
      rest.any isTextEvent
    else textAfterHandoffSuccess rest
  | _ :: rest => textAfterHandoffSuccess rest

/-- A `request_interpretation` tool call with parsed (empty) arguments. -/
def interpToolCall (id : String) : ToolCall :=
  { id := id, name := "request_interpretation",
    argsResult := .ok { focus_area := none } }

/-- A `list_spreads` tool call. -/
def listSpreadsToolCall (id : String) : ToolCall :=
  { id := id, name := "list_spreads", argsResult := .ok { focus_area := none } }

/-- Oracle environment for the C1 runs: iteration 1 batches a
`request_interpretation` and a `list_spreads` call, iteration 2 answers
with plain text `s` and no tool calls. -/
def c1Env (lsText s : String) : ChatEnv :=
  { script := [ .ok { textDeltas := [],
                      toolCalls := [interpToolCall "t1", listSpreadsToolCall "t2"] },
                .ok { textDeltas := [s], toolCalls := [] } ],
    listSpreadsText := lsText, allCards := [] }

/-! ## Claim C1 — conversation-model text after a successful handoff -/

set_option maxRecDepth 8000 in
/-- C1 (counterexample): a Turn whose first iteration successfully runs
`request_interpretation` (with a `list_spreads` batched alongside) and
whose next conversation-model response is plain text emits that text as
`text` events *after* the handoff stream completed — the handoff is not
irrevocable. -/
theorem claimC1_counterexample :
    textAfterHandoffSuccess (processChat (some demoSpread) [] []
      [.ok ["The cards urge patience."]]
      (c1Env "[spreads]" "Any questions?")) = true := by
  decide

/-- C1 (amended): a successful `request_interpretation` does not end the
Turn.  Its tool result is the closing-instruction sentinel (which asks the
conversation model for a brief closing message), tool calls batched after
it in the same iteration still execute, the loop then issues another
conversation-model call, and that call's (non-empty) text deltas are
emitted as further `text` events after the handoff's stream completed. -/
theorem claimC1_amended (lsText : String) (spread : SpreadWithCards)
    (chunks : List String) (s : String) (hs : s ≠ "") :
    processChat (some spread) [] [] [.ok chunks] (c1Env lsText s) =
      [SEvent.toolCall "t1" "request_interpretation", SEvent.text "\n\n"] ++
      chunks.map SEvent.text ++
      [SEvent.text "\n\n",
       SEvent.toolResult "request_interpretation" interpretationClosingText,
       SEvent.toolCall "t2" "list_spreads",
       SEvent.toolResult "list_spreads" lsText,
       SEvent.text s, SEvent.done] := by
  have hfil : List.filter (fun d => !(d = "")) [s] = [s] := by simp [hs]
  simp [processChat, maxToolIterations, runLoop, execTools, execTool, c1Env,
    interpToolCall, listSpreadsToolCall, requestThinkingInterpretation, hfil]

/-- C1 (witness): the amended theorem at a concrete spread, one
interpretation chunk and the closing text `"Anything else?"`. -/
theorem claimC1_witness :
    processChat (some demoSpread) [] [] [.ok ["chunk"]]
      (c1Env "[spreads]" "Anything else?") =
      [SEvent.toolCall "t1" "request_interpretation", SEvent.text "\n\n",
       SEvent.text "chunk", SEvent.text "\n\n",
       SEvent.toolResult "request_interpretation" interpretationClosingText,
       SEvent.toolCall "t2" "list_spreads",
       SEvent.toolResult "list_spreads" "[spreads]",
       SEvent.text "Anything else?", SEvent.done] := by
  exact claimC1_amended "[spreads]" demoSpread ["chunk"] "Anything else?" (by decide)

/-! ## Claim C2 — the once-per-Turn handoff guard -/

/-- Oracle environment for the C2 run: `request_interpretation` is called
once in iteration 1 and once again in iteration 2. -/
def c2Env : ChatEnv :=
  { script := [ .ok { textDeltas := [], toolCalls := [interpToolCall "t1"] },
                .ok { textDeltas := [], toolCalls := [interpToolCall "t2"] },
                .ok { textDeltas := [], toolCalls := [] } ],
    listSpreadsText := "", allCards := [] }

set_option maxRecDepth 8000 in
/-- C2 (code bug): `hasCalledInterpretation` is declared *inside* the
`while` loop, so it resets every iteration.  A Turn whose model calls
`request_interpretation` in two successive iterations gets **two**
Interpretation Handoff invocations — both interpretation streams are
emitted and both tool results are the closing-instruction text; the
"already provided" sentinel never appears, contradicting the source's own
comment "Prevent duplicate interpretation calls in same turn". -/
theorem claimC2_code_bug :
    (processChat (some demoSpread) [] []
        [.ok ["First reading."], .ok ["Second reading."]] c2Env).count
      (SEvent.toolResult "request_interpretation" interpretationClosingText) = 2 ∧
    (processChat (some demoSpread) [] []
        [.ok ["First reading."], .ok ["Second reading."]] c2Env).count
      (SEvent.toolResult "request_interpretation" interpretationSentinel) = 0 ∧
    SEvent.text "First reading." ∈ processChat (some demoSpread) [] []
        [.ok ["First reading."], .ok ["Second reading."]] c2Env ∧
    SEvent.text "Second reading." ∈ processChat (some demoSpread) [] []
        [.ok ["First reading."], .ok ["Second reading."]] c2Env := by
  decide

/-! ## Claim C3 — stream termination discipline -/

/-- Helper: every event a single tool execution emits is non-terminal. -/
theorem execTool_events_nonterminal (env : ChatEnv) (st : TurnState)
    (hasInterp : Bool) (tc : ToolCall) :
    (execTool env st hasInterp tc).1.all (fun e => !isTerminalEvent e) = true := by
  unfold execTool
  rcases tc.argsResult with m | args
  · rfl
  · dsimp only
    by_cases h1 : tc.name = "list_spreads"
    · simp [h1, isTerminalEvent]
    · rw [if_neg h1]
      by_cases h2 : tc.name = "draw_cards"
      · rw [if_pos h2]
        rcases st.drawOutcomes.headD (.error "Failed to draw cards") with e | spread
        · simp [isTerminalEvent]
        · simp [isTerminalEvent]
      · rw [if_neg h2]
        by_cases h3 : tc.name = "request_interpretation"
        · rw [if_pos h3]
          by_cases h4 : hasInterp
          · simp [h4, isTerminalEvent]
          · rw [if_neg h4]
            rcases st.activeSpread with _ | spread
            · simp [isTerminalEvent]
            · simp only [List.all_cons, List.all_append, List.all_map]
              simp [isTerminalEvent, Function.comp]
        · rw [if_neg h3]
          simp [isTerminalEvent]

/-- Helper: every event a batch of tool executions emits is non-terminal. -/
theorem execTools_events_nonterminal (env : ChatEnv) :
    ∀ (tcs : List ToolCall) (st : TurnState) (hasInterp : Bool),
      (execTools env st hasInterp tcs).1.all (fun e => !isTerminalEvent e) = true := by
  intro tcs
  induction tcs with
  | nil => intro st hasInterp; rfl
  | cons tc rest ih =>
    intro st hasInterp
    unfold execTools
    rcases hx : execTool env st hasInterp tc with ⟨evs, r⟩
    have hevs : evs.all (fun e => !isTerminalEvent e) = true := by
      have := execTool_events_nonterminal env st hasInterp tc
      rw [hx] at this
      exact this
    rcases r with m | st₁
    · exact hevs
    · rcases st₁ with ⟨st₂, h₂⟩
      dsimp only
      rcases hy : execTools env st₂ h₂ rest with ⟨evs₂, r₂⟩
      have hevs₂ : evs₂.all (fun e => !isTerminalEvent e) = true := by
        have := ih st₂ h₂
        rw [hy] at this
        exact this
      simp [List.all_append, hevs, hevs₂]

/-- Helper: every event emitted inside the tool loop is non-terminal
(`done` / `error` are appended only by `processChat` afterwards). -/
theorem runLoop_events_nonterminal (env : ChatEnv) :
    ∀ (fuel callIdx : Nat) (st : TurnState),
      (runLoop env fuel callIdx st).1.all (fun e => !isTerminalEvent e) = true := by
  intro fuel
  induction fuel with
  | zero => intro callIdx st; rfl
  | succ fuel ih =>
    intro callIdx st
    unfold runLoop
    rcases env.script.getD callIdx (.error "model call failed") with m | resp
    · rfl
    · dsimp only
      have htext : ((resp.textDeltas.filter (fun d => !(d = ""))).map SEvent.text).all
          (fun e => !isTerminalEvent e) = true := by
        apply List.all_eq_true.mpr
        intro e he
        rcases List.mem_map.mp he with ⟨d, _, rfl⟩
        rfl
      by_cases hempty : resp.toolCalls.isEmpty
      · simp [hempty, htext]
      · rw [if_neg hempty]
        rcases hx : execTools env st false resp.toolCalls with ⟨evs, r⟩
        have hevs : evs.all (fun e => !isTerminalEvent e) = true := by
          have := execTools_events_nonterminal env resp.toolCalls st false
          rw [hx] at this
          exact this
        rcases r with m | st₁
        · simp [List.all_append, htext, hevs]
        · dsimp only
          rcases hy : runLoop env fuel (callIdx + 1) st₁ with ⟨evs₂, r₂⟩
          have hevs₂ : evs₂.all (fun e => !isTerminalEvent e) = true := by
            have := ih (callIdx + 1) st₁
            rw [hy] at this
            exact this
          simp [List.all_append, htext, hevs, hevs₂]

/-- Oracle environment for the C3 counterexample: the first
conversation-model call throws. -/
def c3Env : ChatEnv :=
  { script := [.error "boom"], listSpreadsText := "", allCards := [] }

/-- C3 (counterexample): on a processing failure the trace is a single
`error` event with *no* subsequent `done` — the claim "an `error` event
followed by `done`, never an `error` with no subsequent `done`" is false. -/
theorem claimC3_counterexample :
    processChat none [] [] [] c3Env = [SEvent.errorEvt "boom"] ∧
    ¬ ((processChat none [] [] [] c3Env).count SEvent.done = 1 ∧
       (processChat none [] [] [] c3Env).getLast? = some SEvent.done) := by
  constructor
  · rfl
  · decide

/-- C3 (amended): every Turn's trace ends in exactly one terminal event:
all earlier events are non-terminal, and the last event is `done` on the
normal path or `error` (with no `done` at all) when an exception reached
the outer catch. -/
theorem claimC3_amended (activeSpread : Option SpreadWithCards)
    (spreadLedger : List SpreadLedgerEntry)
    (drawOutcomes : List (Except String SpreadWithCards))
    (interpOutcomes : List (Except String (List String))) (env : ChatEnv) :
    ∃ evs last,
      processChat activeSpread spreadLedger drawOutcomes interpOutcomes env =
        evs ++ [last] ∧
      isTerminalEvent last = true ∧
      evs.all (fun e => !isTerminalEvent e) = true ∧
      (last = SEvent.done ∨ ∃ m, last = SEvent.errorEvt m) := by
  unfold processChat
  dsimp only
  rcases hr : runLoop env maxToolIterations 0
      { activeSpread := activeSpread, ledger := spreadLedger,
        drawOutcomes := drawOutcomes, interpOutcomes := interpOutcomes,
        clock := 0 } with ⟨evs, exc⟩
  have hevs : evs.all (fun e => !isTerminalEvent e) = true := by
    have := runLoop_events_nonterminal env maxToolIterations 0
      { activeSpread := activeSpread, ledger := spreadLedger,
        drawOutcomes := drawOutcomes, interpOutcomes := interpOutcomes,
        clock := 0 }
    rw [hr] at this
    exact this
  rcases exc with _ | m
  · exact ⟨evs, SEvent.done, rfl, rfl, hevs, Or.inl rfl⟩
  · exact ⟨evs, SEvent.errorEvt m, rfl, rfl, hevs, Or.inr ⟨m, rfl⟩⟩
